import Mathlib

/-!
# DialogServiceConnector: a shallow embedding of `speechapi_cxx_dialog_service_connector.h`

The header is a facade over a handle-based C engine.  The engine is not part of the
repository, so it is a parameter here: an `Engine` answers every entry-point call, and
its answer may depend on everything that happened before.  Every facade function
threads a chronological `Trace` of what it did at the engine boundary.

Conventions.
* Handles and status codes are natural numbers.
* The background task of an `...Async` member is modelled by the body of its lambda,
  run from start to end; its result is `Except SPXHR α`, an `error hr` being the
  exception that `SPX_THROW_ON_FAIL` raises for the status `hr`.
* The diagnostic macros `SPX_DBG_TRACE_SCOPE`, `SPX_DBG_TRACE_VERBOSE`,
  `SPX_DBG_TRACE_VERBOSE_IF`, `SPX_DBG_ASSERT` and `SPX_REPORT_ON_FAIL` only log; they
  are left out (release configuration, in which the `SPX_DBG_` ones expand to nothing).
* An out-parameter of an engine call is modelled by the `handle` field of the reply:
  the value the pointed-to variable holds when the call has returned.
-/

namespace DialogService

/-! ## The engine boundary -/

/-- An engine handle (`SPXHANDLE` and its aliases `SPXRECOHANDLE`, `SPXASYNCHANDLE`,
`SPXEVENTHANDLE`, ...). -/
abbrev SPXHANDLE := Nat

/-- A native status code (`SPXHR`). -/
abbrev SPXHR := Nat

/-- Modelled from the spec: the "invalid" sentinel handle, `SPXHANDLE_INVALID` of
`speechapi_c_common.h` (not under src).  The value is the all-ones 64-bit pattern of
`(SPXHANDLE)-1`; the development only ever compares handles with it. -/
def SPXHANDLE_INVALID : SPXHANDLE := 18446744073709551615

/-- Modelled from the spec: the one "success" status, `SPX_NOERROR` of
`speechapi_c_error.h` (not under src). -/
def SPX_NOERROR : SPXHR := 0

/-- Modelled from the spec: `SPX_FAILED(hr)`, true for every non-success status. -/
def SPX_FAILED (hr : SPXHR) : Bool := hr != SPX_NOERROR

/-- The largest 32-bit unsigned value, `UINT32_MAX` of `<cstdint>`. -/
def UINT32_MAX : Nat := 4294967295

/-- The nine event endpoints of the connector, in the order of their declaration. -/
inductive EventKind where
  | Recognized
  | Recognizing
  | SessionStarted
  | SessionStopped
  | SpeechStartDetected
  | SpeechEndDetected
  | Canceled
  | ActivityReceived
  | TurnStatusReceived
  deriving DecidableEq, Repr

/-- The engine entry points the header calls, with the arguments passed.
The nine `dialog_service_connector_<kind>_set_callback` entry points are one
constructor indexed by the kind; its callback argument is `some k` for the static member
`FireEvent_<k>` and `none` for `nullptr`, and `pv_context` is the `this` pointer.
`send_activity` receives a `const char*` and a pointer to a caller-owned buffer; the
first is recorded by the C string the entry point can read there (the characters up to
the first terminator), the second by the number of characters the buffer has. -/
inductive EngineCall where
  | dialog_service_connector_handle_release (h : SPXHANDLE)
  | dialog_service_connector_create_dialog_service_connector_from_config
      (h_config h_audio : SPXHANDLE)
  | dialog_service_connector_get_property_bag (h : SPXHANDLE)
  | dialog_service_connector_connect (h : SPXHANDLE)
  | dialog_service_connector_disconnect (h : SPXHANDLE)
  | dialog_service_connector_send_activity (h : SPXHANDLE) (activity : String)
      (buffer_capacity : Nat)
  | dialog_service_connector_start_keyword_recognition (h h_model : SPXHANDLE)
  | dialog_service_connector_stop_keyword_recognition (h : SPXHANDLE)
  | dialog_service_connector_listen_once (h : SPXHANDLE)
  | speechapi_async_handle_release (h_async : SPXHANDLE)
  | dialog_service_connector_stop_listening_async (h : SPXHANDLE)
  | speechapi_async_wait_for (h_async : SPXHANDLE) (milliseconds : Nat)
  | set_callback (kind : EventKind) (h : SPXHANDLE) (callback : Option EventKind)
      (pv_context : Nat)
  | recognizer_event_handle_release (h_event : SPXHANDLE)
  deriving DecidableEq, Repr

/-- What is observable of a run: the engine calls, and the deliveries of an event to a
subscriber of an endpoint (`subscriber` numbers the endpoint's current subscribers). -/
inductive Observation where
  | engine (c : EngineCall)
  | notify (kind : EventKind) (subscriber : Nat) (h_event : SPXHANDLE)
  deriving DecidableEq, Repr

/-- The chronological record of a run, oldest entry first. -/
abbrev Trace := List Observation

/-- What an engine entry point hands back: its status, the handle it left in its
out-parameter (for the entry points that have one), and the characters it left in the
caller's character buffer (for `send_activity`). -/
structure EngineReply where
  hr : SPXHR
  handle : SPXHANDLE
  buffer : List Char
  deriving DecidableEq, Repr

/-- The opaque engine: its reply to a call, given everything observed so far. -/
abbrev Engine := Trace → EngineCall → EngineReply

/-- Perform one engine call: the reply, and the trace extended by the call. -/
def call (eng : Engine) (t : Trace) (c : EngineCall) : EngineReply × Trace :=
  (eng t c, t ++ [Observation.engine c])

/-- Number of calls of the connector release entry point in a trace. -/
def releaseCalls (t : Trace) : Nat :=
  t.countP fun o =>
    match o with
    | Observation.engine (EngineCall.dialog_service_connector_handle_release _) => true
    | _ => false

/-! ## Collaborators declared in other headers -/

/-- A dialog configuration, as far as the connector uses it: its underlying handle. -/
structure DialogServiceConfig where
  handle : SPXHANDLE
  deriving DecidableEq, Repr

/-- An audio configuration, as far as the connector uses it: its underlying handle. -/
structure AudioConfig where
  handle : SPXHANDLE
  deriving DecidableEq, Repr

/-- A keyword model, as far as the connector uses it: its underlying handle. -/
structure KeywordRecognitionModel where
  handle : SPXHANDLE
  deriving DecidableEq, Repr

/-- The result object `ListenOnceAsync` returns: it wraps a result handle. -/
structure SpeechRecognitionResult where
  m_hresult : SPXHANDLE
  deriving DecidableEq, Repr

/-- Modelled from the spec: `Utils::HandleOrInvalid` of `speechapi_cxx_utils.h` (not under
src): the underlying handle of an object that is present, "or an invalid sentinel if
absent". -/
def HandleOrInvalid (handle_of : α → SPXHANDLE) (p : Option α) : SPXHANDLE :=
  match p with
  | some x => handle_of x
  | none => SPXHANDLE_INVALID

/-- The terminator of a C string. -/
def NUL : Char := Char.ofNat 0

/-- The conversion `std::string{ p }` of a pointer into a character array `mem`: the
characters before the first terminator.  Without a terminator in the array the read
runs past its end, which has no defined result: `none`. -/
def c_string (mem : List Char) : Option String :=
  if NUL ∈ mem then some (String.mk (mem.takeWhile fun c => c != NUL)) else none

/-- The C string at the pointer `s.c_str()`: the array holds the characters of `s`
followed by a terminator, so what a reader of the `const char*` gets is the characters
of `s` before its first terminator, and all of `s` when it holds none. -/
def c_str (s : String) : String :=
  String.mk (s.data.takeWhile fun c => c != NUL)

/-- The property identifiers the connector consumes, and all the others. -/
inductive PropertyId where
  | SpeechServiceAuthorization_Token
  | Conversation_Speech_Activity_Template
  | other (id : Nat)
  deriving DecidableEq, Repr

/-- Modelled from the spec: `PropertyCollection` of `speechapi_cxx_properties.h` (not
under src), "a key/value store of configuration strings backed by the engine, accessed
by enumerated property identifiers".  `m_propbag` is the bag handle; `entries` stands
for the engine-side store, most recent binding first. -/
structure PropertyCollection where
  m_propbag : SPXHANDLE
  entries : List (PropertyId × String)
  deriving DecidableEq, Repr

/-- Modelled from the spec: `PropertyCollection::GetProperty`, the value stored under the
identifier, and the given default when the identifier is unset. -/
def PropertyCollection.GetProperty (p : PropertyCollection) (id : PropertyId)
    (defaultValue : String) : String :=
  match p.entries.lookup id with
  | some v => v
  | none => defaultValue

/-- Modelled from the spec: `PropertyCollection::SetProperty`, which stores the value
under the identifier, replacing what was there. -/
def PropertyCollection.SetProperty (p : PropertyCollection) (id : PropertyId)
    (value : String) : PropertyCollection :=
  { p with entries := (id, value) :: p.entries.filter fun e => e.1 != id }

/-- Modelled from the spec: `EventSignal` of `speechapi_cxx_eventsignal.h` (not under
src).  "Each endpoint tracks whether any subscriber is attached"; the model keeps the
number of attached subscribers. -/
structure EventSignal where
  subscribers : Nat
  deriving DecidableEq, Repr

/-- Modelled from the spec: `EventSignal::IsConnected`, whether any subscriber is
attached. -/
def EventSignal.IsConnected (s : EventSignal) : Bool := s.subscribers != 0

/-! ## The connector -/

/-- The data members of `DialogServiceConnector`, and the address of the object
(`this`, which the connector hands to the engine as callback context). -/
structure DialogServiceConnector where
  address : Nat
  Recognized : EventSignal
  Recognizing : EventSignal
  SessionStarted : EventSignal
  SessionStopped : EventSignal
  SpeechStartDetected : EventSignal
  SpeechEndDetected : EventSignal
  Canceled : EventSignal
  ActivityReceived : EventSignal
  TurnStatusReceived : EventSignal
  m_handle : SPXHANDLE
  m_hasyncStopContinuous : SPXHANDLE
  m_properties : PropertyCollection
  deriving DecidableEq, Repr

namespace DialogServiceConnector

/-- The public reference member `Properties`, bound to `m_properties`. -/
def Properties (self : DialogServiceConnector) : PropertyCollection := self.m_properties

/-- The endpoint object of a kind. -/
def endpoint (self : DialogServiceConnector) : EventKind → EventSignal
  | EventKind.Recognized => self.Recognized
  | EventKind.Recognizing => self.Recognizing
  | EventKind.SessionStarted => self.SessionStarted
  | EventKind.SessionStopped => self.SessionStopped
  | EventKind.SpeechStartDetected => self.SpeechStartDetected
  | EventKind.SpeechEndDetected => self.SpeechEndDetected
  | EventKind.Canceled => self.Canceled
  | EventKind.ActivityReceived => self.ActivityReceived
  | EventKind.TurnStatusReceived => self.TurnStatusReceived

/-- Store a new value in the endpoint object of a kind. -/
def setEndpoint (self : DialogServiceConnector) (k : EventKind) (s : EventSignal) :
    DialogServiceConnector :=
  match k with
  | EventKind.Recognized => { self with Recognized := s }
  | EventKind.Recognizing => { self with Recognizing := s }
  | EventKind.SessionStarted => { self with SessionStarted := s }
  | EventKind.SessionStopped => { self with SessionStopped := s }
  | EventKind.SpeechStartDetected => { self with SpeechStartDetected := s }
  | EventKind.SpeechEndDetected => { self with SpeechEndDetected := s }
  | EventKind.Canceled => { self with Canceled := s }
  | EventKind.ActivityReceived => { self with ActivityReceived := s }
  | EventKind.TurnStatusReceived => { self with TurnStatusReceived := s }

/-- The engine call `dialog_service_connector_<kind>_set_callback(m_handle,
<kind>.IsConnected() ? FireEvent_<kind> : nullptr, this)`. -/
def setCallbackCall (self : DialogServiceConnector) (k : EventKind) : Observation :=
  Observation.engine
    (EngineCall.set_callback k self.m_handle
      (if (self.endpoint k).IsConnected then some k else none) self.address)

/-- Source lines 328-344.  The argument names the endpoint object the reference
`reco_event` refers to; `&reco_event == &Recognizing` is equality of endpoints. -/
def RecognizerEventConnectionChanged (self : DialogServiceConnector) (t : Trace)
    (reco_event : EventKind) : Trace :=
  if self.m_handle != SPXHANDLE_INVALID then
    if reco_event = EventKind.Recognizing then
      t ++ [self.setCallbackCall EventKind.Recognizing]
    else if reco_event = EventKind.Recognized then
      t ++ [self.setCallbackCall EventKind.Recognized]
    else t
  else t

/-- Source lines 368-384. -/
def SessionEventConnectionChanged (self : DialogServiceConnector) (t : Trace)
    (session_event : EventKind) : Trace :=
  if self.m_handle != SPXHANDLE_INVALID then
    if session_event = EventKind.SessionStarted then
      t ++ [self.setCallbackCall EventKind.SessionStarted]
    else if session_event = EventKind.SessionStopped then
      t ++ [self.setCallbackCall EventKind.SessionStopped]
    else t
  else t

/-- Source lines 408-424. -/
def SpeechDetectionEventConnectionChanged (self : DialogServiceConnector) (t : Trace)
    (speech_detection_event : EventKind) : Trace :=
  if self.m_handle != SPXHANDLE_INVALID then
    if speech_detection_event = EventKind.SpeechStartDetected then
      t ++ [self.setCallbackCall EventKind.SpeechStartDetected]
    else if speech_detection_event = EventKind.SpeechEndDetected then
      t ++ [self.setCallbackCall EventKind.SpeechEndDetected]
    else t
  else t

/-- Source lines 434-446. -/
def CanceledEventConnectionChanged (self : DialogServiceConnector) (t : Trace)
    (canceled_event : EventKind) : Trace :=
  if self.m_handle != SPXHANDLE_INVALID then
    if canceled_event = EventKind.Canceled then
      t ++ [self.setCallbackCall EventKind.Canceled]
    else t
  else t

/-- Source lines 456-468. -/
def ActivityReceivedConnectionChanged (self : DialogServiceConnector) (t : Trace)
    (activity_event : EventKind) : Trace :=
  if self.m_handle != SPXHANDLE_INVALID then
    if activity_event = EventKind.ActivityReceived then
      t ++ [self.setCallbackCall EventKind.ActivityReceived]
    else t
  else t

/-- Source lines 478-490. -/
def TurnStatusReceivedConnectionChanged (self : DialogServiceConnector) (t : Trace)
    (turn_status_event : EventKind) : Trace :=
  if self.m_handle != SPXHANDLE_INVALID then
    if turn_status_event = EventKind.TurnStatusReceived then
      t ++ [self.setCallbackCall EventKind.TurnStatusReceived]
    else t
  else t

/-- The connection-changed callback each endpoint is constructed with (the member
initialisers of the constructor, source lines 507-515). -/
def Callback : EventKind → DialogServiceConnector → Trace → EventKind → Trace
  | EventKind.Recognized => RecognizerEventConnectionChanged
  | EventKind.Recognizing => RecognizerEventConnectionChanged
  | EventKind.SessionStarted => SessionEventConnectionChanged
  | EventKind.SessionStopped => SessionEventConnectionChanged
  | EventKind.SpeechStartDetected => SpeechDetectionEventConnectionChanged
  | EventKind.SpeechEndDetected => SpeechDetectionEventConnectionChanged
  | EventKind.Canceled => CanceledEventConnectionChanged
  | EventKind.ActivityReceived => ActivityReceivedConnectionChanged
  | EventKind.TurnStatusReceived => TurnStatusReceivedConnectionChanged

/-- Source lines 492-504, the constructor of `PrivatePropertyCollection`: it asks the
engine for the connector's property bag (ignoring the status) and hands the bag handle
to its base class.  Modelled from the spec: the `PropertyCollection` base-class
constructor (not under src) wraps that handle; no property has been set through a bag
that was just obtained. -/
def PrivatePropertyCollection (eng : Engine) (h_connector : SPXHANDLE) (t : Trace) :
    PropertyCollection × Trace :=
  let r := call eng t (EngineCall.dialog_service_connector_get_property_bag h_connector)
  ({ m_propbag := r.1.handle, entries := [] }, r.2)

/-- Source lines 506-520, the private constructor.  The nine endpoints start without
subscribers, `m_handle` and `m_properties` are initialised from `handle`.
`m_hasyncStopContinuous` has no initialiser (source line 525 declares it, the
constructor does not mention it), so it holds whatever the storage held:
`indeterminate`. -/
def ctor (eng : Engine) (address : Nat) (indeterminate : SPXHANDLE) (handle : SPXHANDLE)
    (t : Trace) : DialogServiceConnector × Trace :=
  let p := PrivatePropertyCollection eng handle t
  ({ address := address
     Recognized := ⟨0⟩
     Recognizing := ⟨0⟩
     SessionStarted := ⟨0⟩
     SessionStopped := ⟨0⟩
     SpeechStartDetected := ⟨0⟩
     SpeechEndDetected := ⟨0⟩
     Canceled := ⟨0⟩
     ActivityReceived := ⟨0⟩
     TurnStatusReceived := ⟨0⟩
     m_handle := handle
     m_hasyncStopContinuous := indeterminate
     m_properties := p.1 }, p.2)

/-- Source lines 52-62, the body of the destructor. -/
def Destructor (self : DialogServiceConnector) (t : Trace) :
    DialogServiceConnector × Trace :=
  if self.m_handle != SPXHANDLE_INVALID then
    ({ self with m_handle := SPXHANDLE_INVALID },
      t ++ [Observation.engine (EngineCall.dialog_service_connector_handle_release self.m_handle)])
  else (self, t)

/-- Source lines 86-95.  `address` and `indeterminate` are what `new` provides: where
the object is placed and what its storage held. -/
def FromConfig (eng : Engine) (address : Nat) (indeterminate : SPXHANDLE)
    (connectorConfig : Option DialogServiceConfig) (audioConfig : Option AudioConfig)
    (t : Trace) : Except SPXHR DialogServiceConnector × Trace :=
  let r := call eng t
    (EngineCall.dialog_service_connector_create_dialog_service_connector_from_config
      (HandleOrInvalid DialogServiceConfig.handle connectorConfig)
      (HandleOrInvalid AudioConfig.handle audioConfig))
  if SPX_FAILED r.1.hr then (Except.error r.1.hr, r.2)
  else
    let c := ctor eng address indeterminate r.1.handle r.2
    (Except.ok c.1, c.2)

/-- Source lines 101-108, the background task. -/
def ConnectAsync (eng : Engine) (self : DialogServiceConnector) (t : Trace) :
    Except SPXHR Unit × Trace :=
  let r := call eng t (EngineCall.dialog_service_connector_connect self.m_handle)
  if SPX_FAILED r.1.hr then (Except.error r.1.hr, r.2) else (Except.ok (), r.2)

/-- Source lines 114-121, the background task. -/
def DisconnectAsync (eng : Engine) (self : DialogServiceConnector) (t : Trace) :
    Except SPXHR Unit × Trace :=
  let r := call eng t (EngineCall.dialog_service_connector_disconnect self.m_handle)
  if SPX_FAILED r.1.hr then (Except.error r.1.hr, r.2) else (Except.ok (), r.2)

/-- Source lines 128-137, the background task.  The entry point is given
`activity.c_str()`.  `buffer` is a `std::array<char, 50>`; after the call it holds the
first 50 characters the engine left there. -/
def SendActivityAsync (eng : Engine) (self : DialogServiceConnector) (t : Trace)
    (activity : String) : Except SPXHR (Option String) × Trace :=
  let r := call eng t
    (EngineCall.dialog_service_connector_send_activity self.m_handle (c_str activity) 50)
  if SPX_FAILED r.1.hr then (Except.error r.1.hr, r.2)
  else (Except.ok (c_string (r.1.buffer.take 50)), r.2)

/-- Source lines 144-152, the background task (`h_model` is computed before the task
is launched). -/
def StartKeywordRecognitionAsync (eng : Engine) (self : DialogServiceConnector) (t : Trace)
    (model : Option KeywordRecognitionModel) : Except SPXHR Unit × Trace :=
  let h_model := HandleOrInvalid KeywordRecognitionModel.handle model
  let r := call eng t
    (EngineCall.dialog_service_connector_start_keyword_recognition self.m_handle h_model)
  if SPX_FAILED r.1.hr then (Except.error r.1.hr, r.2) else (Except.ok (), r.2)

/-- Source lines 158-165, the background task. -/
def StopKeywordRecognitionAsync (eng : Engine) (self : DialogServiceConnector) (t : Trace) :
    Except SPXHR Unit × Trace :=
  let r := call eng t (EngineCall.dialog_service_connector_stop_keyword_recognition self.m_handle)
  if SPX_FAILED r.1.hr then (Except.error r.1.hr, r.2) else (Except.ok (), r.2)

/-- Source lines 171-183, the background task. -/
def ListenOnceAsync (eng : Engine) (self : DialogServiceConnector) (t : Trace) :
    Except SPXHR SpeechRecognitionResult × Trace :=
  let r := call eng t (EngineCall.dialog_service_connector_listen_once self.m_handle)
  if SPX_FAILED r.1.hr then (Except.error r.1.hr, r.2)
  else (Except.ok { m_hresult := r.1.handle }, r.2)

/-- Source lines 190-209, the background task.
Line 196 is `SPX_THROW_ON_FAIL`: a failed release of the stored handle raises at once.
Lines 197 and 198 are `SPX_EXITFN_ON_FAIL`: a failure jumps to `SPX_EXITFN_CLEANUP`
(lines 200-203), which is also reached by falling through; line 205 raises the
status kept in `hr`. -/
def StopListeningAsync (eng : Engine) (self : DialogServiceConnector) (t : Trace) :
    Except SPXHR Unit × DialogServiceConnector × Trace :=
  let r0 := call eng t (EngineCall.speechapi_async_handle_release self.m_hasyncStopContinuous)
  if SPX_FAILED r0.1.hr then (Except.error r0.1.hr, self, r0.2)
  else
    let r1 := call eng r0.2 (EngineCall.dialog_service_connector_stop_listening_async self.m_handle)
    let self1 := { self with m_hasyncStopContinuous := r1.1.handle }
    let w : SPXHR × Trace :=
      if SPX_FAILED r1.1.hr then (r1.1.hr, r1.2)
      else
        let r2 := call eng r1.2
          (EngineCall.speechapi_async_wait_for self1.m_hasyncStopContinuous UINT32_MAX)
        (r2.1.hr, r2.2)
    let r3 := call eng w.2 (EngineCall.speechapi_async_handle_release self1.m_hasyncStopContinuous)
    let self2 := { self1 with m_hasyncStopContinuous := SPXHANDLE_INVALID }
    if SPX_FAILED w.1 then (Except.error w.1, self2, r3.2) else (Except.ok (), self2, r3.2)

/-- Source lines 218-221. -/
def SetAuthorizationToken (self : DialogServiceConnector) (token : String) :
    DialogServiceConnector :=
  { self with
    m_properties := self.Properties.SetProperty PropertyId.SpeechServiceAuthorization_Token token }

/-- Source lines 227-230. -/
def GetAuthorizationToken (self : DialogServiceConnector) : String :=
  self.Properties.GetProperty PropertyId.SpeechServiceAuthorization_Token ""

/-- Source lines 240-243. -/
def SetSpeechActivityTemplate (self : DialogServiceConnector) (activityTemplate : String) :
    DialogServiceConnector :=
  { self with
    m_properties :=
      self.Properties.SetProperty PropertyId.Conversation_Speech_Activity_Template activityTemplate }

/-- Source lines 251-254. -/
def GetSpeechActivityTemplate (self : DialogServiceConnector) : String :=
  self.Properties.GetProperty PropertyId.Conversation_Speech_Activity_Template ""

/-- Modelled from the spec: `EventSignal::Signal` (not under src), which "signals all
current subscribers synchronously": one delivery per attached subscriber, in order. -/
def Signal (self : DialogServiceConnector) (k : EventKind) (h_event : SPXHANDLE) (t : Trace) :
    Trace :=
  t ++ (List.range (self.endpoint k).subscribers).map fun i => Observation.notify k i h_event

/-- Source lines 312-318.  In the nine dispatchers `self` is the connector `pv_context`
points to; the engine's first argument is unnamed and unused. -/
def FireEvent_Recognized (self : DialogServiceConnector) (h_event : SPXHANDLE) (t : Trace) :
    Trace :=
  self.Signal EventKind.Recognized h_event t

/-- Source lines 320-326. -/
def FireEvent_Recognizing (self : DialogServiceConnector) (h_event : SPXHANDLE) (t : Trace) :
    Trace :=
  self.Signal EventKind.Recognizing h_event t

/-- Source lines 346-355. -/
def FireEvent_SessionStarted (self : DialogServiceConnector) (h_event : SPXHANDLE)
    (t : Trace) : Trace :=
  self.Signal EventKind.SessionStarted h_event t
    ++ [Observation.engine (EngineCall.recognizer_event_handle_release h_event)]

/-- Source lines 357-366. -/
def FireEvent_SessionStopped (self : DialogServiceConnector) (h_event : SPXHANDLE)
    (t : Trace) : Trace :=
  self.Signal EventKind.SessionStopped h_event t
    ++ [Observation.engine (EngineCall.recognizer_event_handle_release h_event)]

/-- Source lines 386-395. -/
def FireEvent_SpeechStartDetected (self : DialogServiceConnector) (h_event : SPXHANDLE)
    (t : Trace) : Trace :=
  self.Signal EventKind.SpeechStartDetected h_event t
    ++ [Observation.engine (EngineCall.recognizer_event_handle_release h_event)]

/-- Source lines 397-406. -/
def FireEvent_SpeechEndDetected (self : DialogServiceConnector) (h_event : SPXHANDLE)
    (t : Trace) : Trace :=
  self.Signal EventKind.SpeechEndDetected h_event t
    ++ [Observation.engine (EngineCall.recognizer_event_handle_release h_event)]

/-- Source lines 426-432. -/
def FireEvent_Canceled (self : DialogServiceConnector) (h_event : SPXHANDLE) (t : Trace) :
    Trace :=
  self.Signal EventKind.Canceled h_event t

/-- Source lines 448-454. -/
def FireEvent_ActivityReceived (self : DialogServiceConnector) (h_event : SPXHANDLE)
    (t : Trace) : Trace :=
  self.Signal EventKind.ActivityReceived h_event t

/-- Source lines 470-476. -/
def FireEvent_TurnStatusReceived (self : DialogServiceConnector) (h_event : SPXHANDLE)
    (t : Trace) : Trace :=
  self.Signal EventKind.TurnStatusReceived h_event t

/-- The static member a callback argument `some k` of `set_callback` stands for. -/
def FireEvent : EventKind → DialogServiceConnector → SPXHANDLE → Trace → Trace
  | EventKind.Recognized => FireEvent_Recognized
  | EventKind.Recognizing => FireEvent_Recognizing
  | EventKind.SessionStarted => FireEvent_SessionStarted
  | EventKind.SessionStopped => FireEvent_SessionStopped
  | EventKind.SpeechStartDetected => FireEvent_SpeechStartDetected
  | EventKind.SpeechEndDetected => FireEvent_SpeechEndDetected
  | EventKind.Canceled => FireEvent_Canceled
  | EventKind.ActivityReceived => FireEvent_ActivityReceived
  | EventKind.TurnStatusReceived => FireEvent_TurnStatusReceived

/-- Modelled from the spec: `EventSignal::Connect` (not under src) on the endpoint of
kind `k`.  The subscriber is attached, and "on a transition from zero-to-one ...
subscribers" the endpoint invokes the connection-changed callback it was constructed
with, passing itself. -/
def Connect (self : DialogServiceConnector) (t : Trace) (k : EventKind) :
    DialogServiceConnector × Trace :=
  let wasConnected := (self.endpoint k).IsConnected
  let self1 := self.setEndpoint k ⟨(self.endpoint k).subscribers + 1⟩
  if !wasConnected && (self1.endpoint k).IsConnected then (self1, Callback k self1 t k)
  else (self1, t)

/-- Modelled from the spec: `EventSignal::Disconnect` (not under src) on the endpoint
of kind `k`.  One subscriber, if there is any, is detached, and on a transition from
"one-to-zero subscribers" the endpoint invokes its connection-changed callback. -/
def Disconnect (self : DialogServiceConnector) (t : Trace) (k : EventKind) :
    DialogServiceConnector × Trace :=
  let wasConnected := (self.endpoint k).IsConnected
  let self1 := self.setEndpoint k ⟨(self.endpoint k).subscribers - 1⟩
  if wasConnected && !(self1.endpoint k).IsConnected then (self1, Callback k self1 t k)
  else (self1, t)

end DialogServiceConnector

/-! ## Sequences of subscription calls -/

/-- A call on an event endpoint by client code. -/
inductive SubscriptionCall where
  | subscribe
  | unsubscribe
  deriving DecidableEq, Repr

/-- Run a sequence of subscribe and unsubscribe calls on the endpoint of kind `k`. -/
def runSubscriptions (k : EventKind) :
    List SubscriptionCall → DialogServiceConnector → Trace → DialogServiceConnector × Trace
  | [], self, t => (self, t)
  | SubscriptionCall.subscribe :: ops, self, t =>
      runSubscriptions k ops (self.Connect t k).1 (self.Connect t k).2
  | SubscriptionCall.unsubscribe :: ops, self, t =>
      runSubscriptions k ops (self.Disconnect t k).1 (self.Disconnect t k).2

/-- The registration calls the specification asks for, from the subscriber count alone:
one registration of `FireEvent_<k>` at each step of the count from 0 to 1, one
deregistration (null callback) at each step from 1 to 0, and nothing otherwise. -/
def expectedRegistrations (k : EventKind) (h : SPXHANDLE) (context : Nat) :
    Nat → List SubscriptionCall → Trace
  | _, [] => []
  | count, SubscriptionCall.subscribe :: ops =>
      (if count = 0 then [Observation.engine (EngineCall.set_callback k h (some k) context)]
        else [])
        ++ expectedRegistrations k h context (count + 1) ops
  | count, SubscriptionCall.unsubscribe :: ops =>
      (if count = 1 then [Observation.engine (EngineCall.set_callback k h none context)]
        else [])
        ++ expectedRegistrations k h context (count - 1) ops

/-! ## Shared ownership of a connector

`FromConfig` returns the connector in a `std::shared_ptr`, and `ConnectAsync` (source
lines 103-104) copies an owner, `keep_alive = shared_from_this()`, into the closure of
its background task.  Threads are modelled by interleaving: a run is a sequence of
atomic events, in any order, and an event that cannot happen in a state leaves it
unchanged. -/

/-- Where a background task of `ConnectAsync` stands: launched, or returned from the
body of its lambda with an outcome. -/
inductive TaskPhase where
  | launched
  | returned (outcome : Except SPXHR Unit)

/-- A connector under shared ownership.  Modelled from the spec: "reference-counted
ownership shared with any async task in flight", "destroyed when the last owning
reference drops" (`std::shared_ptr`, not under src).  `external` counts the owners
client code holds, every entry of `tasks` is a closure holding `keep_alive`, and
`alive` says that the destructor has not run. -/
structure Shared where
  object : DialogServiceConnector
  alive : Bool
  external : Nat
  tasks : List TaskPhase
  trace : Trace

/-- What can happen to a shared connector. -/
inductive LifetimeEvent where
  | callConnectAsync
  | runTask (i : Nat)
  | completeTask (i : Nat)
  | dropExternal

namespace Shared

/-- The state in which `FromConfig` hands the connector to its caller: one owner. -/
def initial (c : DialogServiceConnector) (t : Trace) : Shared :=
  { object := c, alive := true, external := 1, tasks := [], trace := t }

/-- Number of owners of the connector. -/
def owners (s : Shared) : Nat := s.external + s.tasks.length

/-- An owner has just gone away: when it was the last one, the destructor (source lines
52-62) runs. -/
def ownerGone (s : Shared) : Shared :=
  if s.owners = 0 ∧ s.alive = true then
    { s with
      object := (DialogServiceConnector.Destructor s.object s.trace).1
      trace := (DialogServiceConnector.Destructor s.object s.trace).2
      alive := false }
  else s

/-- One atomic event.
* `callConnectAsync`: client code holding an owner calls `ConnectAsync`; the task is
  launched with `keep_alive` in its closure (source lines 103-104).
* `runTask i`: task `i` executes the body of its lambda (source line 106).
* `completeTask i`: task `i`, having returned, is completed; its closure is destroyed
  and `keep_alive` with it.
* `dropExternal`: client code drops one of its owners. -/
def step (eng : Engine) (s : Shared) : LifetimeEvent → Shared
  | LifetimeEvent.callConnectAsync =>
      if 0 < s.external then { s with tasks := s.tasks ++ [TaskPhase.launched] } else s
  | LifetimeEvent.runTask i =>
      match s.tasks.get? i with
      | some TaskPhase.launched =>
          { s with
            tasks := s.tasks.set i
              (TaskPhase.returned (DialogServiceConnector.ConnectAsync eng s.object s.trace).1)
            trace := (DialogServiceConnector.ConnectAsync eng s.object s.trace).2 }
      | _ => s
  | LifetimeEvent.completeTask i =>
      match s.tasks.get? i with
      | some (TaskPhase.returned _) => ownerGone { s with tasks := s.tasks.eraseIdx i }
      | _ => s
  | LifetimeEvent.dropExternal =>
      if 0 < s.external then ownerGone { s with external := s.external - 1 } else s

/-- Run a sequence of events. -/
def run (eng : Engine) (events : List LifetimeEvent) (s : Shared) : Shared :=
  events.foldl (step eng) s

end Shared

/-! ## Concrete connectors and engines used by the examples -/

/-- An engine that succeeds at everything and hands out the handle 42 and the
identifier text `id-1`. -/
def engineAllOk : Engine :=
  fun _ _ => { hr := SPX_NOERROR, handle := 42, buffer := ['i', 'd', '-', '1', NUL] }

/-- The connector the constructor builds at the address 4096 for the connector handle 1,
in storage whose bytes at `m_hasyncStopContinuous` read 7 (the constructor does not
initialise that member). -/
def sampleConnector : DialogServiceConnector :=
  (DialogServiceConnector.ctor engineAllOk 4096 7 1 []).1

/-- An engine that refuses every release of an async handle with the status 33 and
succeeds at everything else. -/
def engineRefusingAsyncRelease : Engine :=
  fun _ c =>
    match c with
    | EngineCall.speechapi_async_handle_release _ => { hr := 33, handle := 42, buffer := [] }
    | _ => { hr := SPX_NOERROR, handle := 42, buffer := [] }

/-- An engine that fails every call with the status 5. -/
def engineAllFail : Engine :=
  fun _ _ => { hr := 5, handle := 42, buffer := [] }

/-- An engine that succeeds at everything and fills the character buffer with fifty
letters and no terminator. -/
def engineUnterminated : Engine :=
  fun _ _ => { hr := SPX_NOERROR, handle := 42, buffer := List.replicate 50 'x' }

/-- Number of calls of the factory entry point in a trace. -/
def factoryCalls (t : Trace) : Nat :=
  t.countP fun o =>
    match o with
    | Observation.engine
        (EngineCall.dialog_service_connector_create_dialog_service_connector_from_config _ _) =>
        true
    | _ => false

/-- The callback slot of an event kind on a connector handle, as the calls of a run
leave it: the callback and context of the last `set_callback` call of that kind on that
handle, and `none` when there was no such call. -/
def callbackSlot (h : SPXHANDLE) (k : EventKind) (t : Trace) :
    Option (Option EventKind × Nat) :=
  t.foldl
    (fun slot o =>
      match o with
      | Observation.engine (EngineCall.set_callback k1 h1 callback pv_context) =>
          if k1 = k ∧ h1 = h then some (callback, pv_context) else slot
      | _ => slot)
    none

/-! ## Theorems -/

open DialogServiceConnector

/-! ### C1: the destructor -/

/-- C1. For every connector state the destructor calls the connector release entry point
exactly once, with the stored handle, when that handle is not the invalid sentinel, and
not at all when it is; either way the stored handle is the invalid sentinel afterwards,
and running the destructor again on the result changes nothing and calls nothing. -/
theorem C1_destructor_releases_exactly_once (self : DialogServiceConnector) (t : Trace) :
    (Destructor self t).2 =
        t ++ (if self.m_handle = SPXHANDLE_INVALID then []
              else [Observation.engine
                (EngineCall.dialog_service_connector_handle_release self.m_handle)])
      ∧ releaseCalls (Destructor self t).2 =
        releaseCalls t + (if self.m_handle = SPXHANDLE_INVALID then 0 else 1)
      ∧ (Destructor self t).1.m_handle = SPXHANDLE_INVALID
      ∧ Destructor (Destructor self t).1 (Destructor self t).2 = Destructor self t := by
  by_cases h : self.m_handle = SPXHANDLE_INVALID
  · simp [Destructor, h]
  · simp [Destructor, h, releaseCalls, List.countP_append]

/-! ### C2, C3: the stop-listening task -/

/-- When the engine refuses the release of the stored transient handle, the task raises
at once: nothing else is called and the connector is as before. -/
theorem StopListeningAsync_release_refused (eng : Engine) (self : DialogServiceConnector)
    (t : Trace)
    (h : SPX_FAILED
      (eng t (EngineCall.speechapi_async_handle_release self.m_hasyncStopContinuous)).hr = true) :
    StopListeningAsync eng self t =
      (Except.error
          (eng t (EngineCall.speechapi_async_handle_release self.m_hasyncStopContinuous)).hr,
        self,
        t ++ [Observation.engine
          (EngineCall.speechapi_async_handle_release self.m_hasyncStopContinuous)]) := by
  simp [StopListeningAsync, call, h]

/-- When the engine accepts the release of the stored transient handle, the task issues
the stop request, ends with the release of the handle the stop request left, and
stores the invalid sentinel. -/
theorem StopListeningAsync_release_accepted (eng : Engine) (self : DialogServiceConnector)
    (t : Trace)
    (h : SPX_FAILED
      (eng t (EngineCall.speechapi_async_handle_release self.m_hasyncStopContinuous)).hr = false) :
    (StopListeningAsync eng self t).2.1 =
        { self with m_hasyncStopContinuous := SPXHANDLE_INVALID }
      ∧ ∃ mid : Trace,
        (StopListeningAsync eng self t).2.2 =
          t ++ [Observation.engine
                  (EngineCall.speechapi_async_handle_release self.m_hasyncStopContinuous),
                Observation.engine
                  (EngineCall.dialog_service_connector_stop_listening_async self.m_handle)]
            ++ mid
            ++ [Observation.engine (EngineCall.speechapi_async_handle_release
                (eng (t ++ [Observation.engine
                      (EngineCall.speechapi_async_handle_release self.m_hasyncStopContinuous)])
                  (EngineCall.dialog_service_connector_stop_listening_async
                    self.m_handle)).handle)] := by
  simp only [StopListeningAsync, call, h, Bool.false_eq_true, ↓reduceIte]
  refine ⟨by split_ifs <;> rfl, ?_⟩
  by_cases h1 : SPX_FAILED
      (eng (t ++ [Observation.engine
          (EngineCall.speechapi_async_handle_release self.m_hasyncStopContinuous)])
        (EngineCall.dialog_service_connector_stop_listening_async self.m_handle)).hr = true
  · exact ⟨[], by simp [h1]⟩
  · refine ⟨[Observation.engine (EngineCall.speechapi_async_wait_for
        (eng (t ++ [Observation.engine
              (EngineCall.speechapi_async_handle_release self.m_hasyncStopContinuous)])
          (EngineCall.dialog_service_connector_stop_listening_async self.m_handle)).handle
        UINT32_MAX)], ?_⟩
    simp only [h1, ↓reduceIte]
    split_ifs <;> simp_all

/-- C2, counterexample. With an engine that refuses the release of the stored transient
handle, the task raises with the engine's status after that single call, and the stored
transient handle is still the stale handle 7, not the invalid sentinel. -/
theorem C2_counterexample_refused_release_leaves_handle :
    (StopListeningAsync engineRefusingAsyncRelease sampleConnector []).1 = Except.error 33
      ∧ (StopListeningAsync engineRefusingAsyncRelease sampleConnector []).2.1.m_hasyncStopContinuous
          = 7
      ∧ (StopListeningAsync engineRefusingAsyncRelease sampleConnector []).2.1.m_hasyncStopContinuous
          ≠ SPXHANDLE_INVALID
      ∧ (StopListeningAsync engineRefusingAsyncRelease sampleConnector []).2.2
          = [Observation.engine (EngineCall.speechapi_async_handle_release 7)] := by
  refine ⟨rfl, rfl, ?_, rfl⟩
  decide

/-- C2, amended. Once the engine has accepted the release of the stale handle, then for
every outcome of the stop request, the wait and the final release, the last thing the
task does at the engine is to release the transient handle the stop request left, and
the stored transient handle is the invalid sentinel afterwards. When the engine refuses
the release of the stale handle, the task raises that status at once, calls nothing
else and leaves the connector as it was. -/
theorem C2_stop_listening_cleanup_after_accepted_release (eng : Engine)
    (self : DialogServiceConnector) (t : Trace) :
    (SPX_FAILED
        (eng t (EngineCall.speechapi_async_handle_release self.m_hasyncStopContinuous)).hr = false →
      (StopListeningAsync eng self t).2.1.m_hasyncStopContinuous = SPXHANDLE_INVALID
        ∧ ∃ before : Trace,
          (StopListeningAsync eng self t).2.2 =
            before ++ [Observation.engine (EngineCall.speechapi_async_handle_release
              (eng (t ++ [Observation.engine
                    (EngineCall.speechapi_async_handle_release self.m_hasyncStopContinuous)])
                (EngineCall.dialog_service_connector_stop_listening_async
                  self.m_handle)).handle)])
      ∧ (SPX_FAILED
          (eng t (EngineCall.speechapi_async_handle_release self.m_hasyncStopContinuous)).hr = true →
        StopListeningAsync eng self t =
          (Except.error
              (eng t (EngineCall.speechapi_async_handle_release self.m_hasyncStopContinuous)).hr,
            self,
            t ++ [Observation.engine
              (EngineCall.speechapi_async_handle_release self.m_hasyncStopContinuous)])) := by
  refine ⟨fun h => ?_, fun h => StopListeningAsync_release_refused eng self t h⟩
  obtain ⟨hs, mid, ht⟩ := StopListeningAsync_release_accepted eng self t h
  refine ⟨by rw [hs], ?_⟩
  exact ⟨_, ht⟩

/-- C2, witness: an engine that accepts everything, on the sample connector. -/
theorem C2_stop_listening_cleanup_witness :
    SPX_FAILED
        (engineAllOk [] (EngineCall.speechapi_async_handle_release
          sampleConnector.m_hasyncStopContinuous)).hr = false
      ∧ (StopListeningAsync engineAllOk sampleConnector []).2.1.m_hasyncStopContinuous
          = SPXHANDLE_INVALID :=
  ⟨rfl, ((C2_stop_listening_cleanup_after_accepted_release engineAllOk sampleConnector []).1
    rfl).1⟩

theorem endpoint_setEndpoint (self : DialogServiceConnector) (k : EventKind) (s : EventSignal) :
    (self.setEndpoint k s).endpoint k = s := by
  cases k <;> rfl

theorem m_handle_setEndpoint (self : DialogServiceConnector) (k : EventKind) (s : EventSignal) :
    (self.setEndpoint k s).m_handle = self.m_handle := by
  cases k <;> rfl

theorem address_setEndpoint (self : DialogServiceConnector) (k : EventKind) (s : EventSignal) :
    (self.setEndpoint k s).address = self.address := by
  cases k <;> rfl

/-- The callback an endpoint was constructed with, invoked with that endpoint, makes the
registration call of the endpoint's own kind when the connector handle is valid. -/
theorem Callback_own_endpoint (self : DialogServiceConnector) (t : Trace) (k : EventKind)
    (h : self.m_handle ≠ SPXHANDLE_INVALID) :
    Callback k self t k = t ++ [self.setCallbackCall k] := by
  cases k <;>
    simp [Callback, RecognizerEventConnectionChanged, SessionEventConnectionChanged,
      SpeechDetectionEventConnectionChanged, CanceledEventConnectionChanged,
      ActivityReceivedConnectionChanged, TurnStatusReceivedConnectionChanged, h]

theorem Connect_fst (self : DialogServiceConnector) (t : Trace) (k : EventKind) :
    (self.Connect t k).1 = self.setEndpoint k ⟨(self.endpoint k).subscribers + 1⟩ := by
  simp only [Connect]
  split_ifs <;> rfl

theorem Disconnect_fst (self : DialogServiceConnector) (t : Trace) (k : EventKind) :
    (self.Disconnect t k).1 = self.setEndpoint k ⟨(self.endpoint k).subscribers - 1⟩ := by
  simp only [Disconnect]
  split_ifs <;> rfl

theorem Connect_snd (self : DialogServiceConnector) (t : Trace) (k : EventKind)
    (h : self.m_handle ≠ SPXHANDLE_INVALID) :
    (self.Connect t k).2 =
      t ++ (if (self.endpoint k).subscribers = 0 then
              [Observation.engine
                (EngineCall.set_callback k self.m_handle (some k) self.address)]
            else []) := by
  have hv : ∀ s, (self.setEndpoint k s).m_handle ≠ SPXHANDLE_INVALID := by
    intro s; rw [m_handle_setEndpoint]; exact h
  unfold Connect
  by_cases h0 : (self.endpoint k).subscribers = 0
  · simp [EventSignal.IsConnected, h0, endpoint_setEndpoint, Callback_own_endpoint _ _ _ (hv _),
      setCallbackCall, m_handle_setEndpoint, address_setEndpoint]
  · simp [EventSignal.IsConnected, h0]

theorem Disconnect_snd (self : DialogServiceConnector) (t : Trace) (k : EventKind)
    (h : self.m_handle ≠ SPXHANDLE_INVALID) :
    (self.Disconnect t k).2 =
      t ++ (if (self.endpoint k).subscribers = 1 then
              [Observation.engine (EngineCall.set_callback k self.m_handle none self.address)]
            else []) := by
  have hv : ∀ s, (self.setEndpoint k s).m_handle ≠ SPXHANDLE_INVALID := by
    intro s; rw [m_handle_setEndpoint]; exact h
  unfold Disconnect
  by_cases h1 : (self.endpoint k).subscribers = 1
  · simp [EventSignal.IsConnected, h1, endpoint_setEndpoint, Callback_own_endpoint _ _ _ (hv _),
      setCallbackCall, m_handle_setEndpoint, address_setEndpoint]
  · by_cases h0 : (self.endpoint k).subscribers = 0
    · simp [EventSignal.IsConnected, h0]
    · have h2 : (self.endpoint k).subscribers - 1 ≠ 0 := by omega
      simp [EventSignal.IsConnected, h0, h1, h2, endpoint_setEndpoint]

/-- C4. On a connector with a valid handle, every sequence of subscribe and unsubscribe
calls on one endpoint makes exactly the engine calls the subscriber count prescribes:
one registration of the endpoint's own FireEvent function at each step of the count
from 0 to 1, one deregistration (null callback) at each step from 1 to 0, and no
engine call for the calls made while the count stays above 0. -/
theorem C4_registration_only_at_count_transitions (k : EventKind)
    (ops : List SubscriptionCall) (self : DialogServiceConnector) (t : Trace)
    (h : self.m_handle ≠ SPXHANDLE_INVALID) :
    (runSubscriptions k ops self t).2 =
      t ++ expectedRegistrations k self.m_handle self.address
        (self.endpoint k).subscribers ops := by
  induction ops generalizing self t with
  | nil => simp [runSubscriptions, expectedRegistrations]
  | cons op ops ih =>
    cases op with
    | subscribe =>
      have hv : (self.Connect t k).1.m_handle ≠ SPXHANDLE_INVALID := by
        rw [Connect_fst, m_handle_setEndpoint]; exact h
      rw [runSubscriptions, ih _ _ hv, Connect_snd _ _ _ h, Connect_fst, m_handle_setEndpoint,
        address_setEndpoint, endpoint_setEndpoint, expectedRegistrations, List.append_assoc]
    | unsubscribe =>
      have hv : (self.Disconnect t k).1.m_handle ≠ SPXHANDLE_INVALID := by
        rw [Disconnect_fst, m_handle_setEndpoint]; exact h
      rw [runSubscriptions, ih _ _ hv, Disconnect_snd _ _ _ h, Disconnect_fst,
        m_handle_setEndpoint, address_setEndpoint, endpoint_setEndpoint, expectedRegistrations,
        List.append_assoc]

/-- C4, witness: subscribe twice, unsubscribe twice, subscribe again on `Canceled`. -/
theorem C4_registration_only_at_count_transitions_witness :
    sampleConnector.m_handle ≠ SPXHANDLE_INVALID
      ∧ (runSubscriptions EventKind.Canceled
          [SubscriptionCall.subscribe, SubscriptionCall.subscribe, SubscriptionCall.unsubscribe,
            SubscriptionCall.unsubscribe, SubscriptionCall.subscribe] sampleConnector []).2
        = [Observation.engine
              (EngineCall.set_callback EventKind.Canceled 1 (some EventKind.Canceled) 4096),
           Observation.engine (EngineCall.set_callback EventKind.Canceled 1 none 4096),
           Observation.engine
              (EngineCall.set_callback EventKind.Canceled 1 (some EventKind.Canceled) 4096)] :=
  ⟨by decide,
    (C4_registration_only_at_count_transitions EventKind.Canceled
      [SubscriptionCall.subscribe, SubscriptionCall.subscribe, SubscriptionCall.unsubscribe,
        SubscriptionCall.unsubscribe, SubscriptionCall.subscribe] sampleConnector []
      (by decide)).trans (by decide)⟩

/-! ### C5: the event dispatchers -/

/-- C5. For every connector, event handle and earlier trace: the dispatchers for
session-started, session-stopped, speech-start-detected and speech-end-detected deliver
the event to the subscribers of their own endpoint and then call the event-handle
release once, on the handle they were given; the dispatchers for recognized,
recognizing, canceled, activity-received and turn-status-received deliver the event to
the subscribers of their own endpoint and call nothing. -/
theorem C5_dispatchers_signal_then_release (self : DialogServiceConnector)
    (h_event : SPXHANDLE) (t : Trace) :
    FireEvent_SessionStarted self h_event t =
        t ++ (List.range self.SessionStarted.subscribers).map
              (fun i => Observation.notify EventKind.SessionStarted i h_event)
          ++ [Observation.engine (EngineCall.recognizer_event_handle_release h_event)]
      ∧ FireEvent_SessionStopped self h_event t =
        t ++ (List.range self.SessionStopped.subscribers).map
              (fun i => Observation.notify EventKind.SessionStopped i h_event)
          ++ [Observation.engine (EngineCall.recognizer_event_handle_release h_event)]
      ∧ FireEvent_SpeechStartDetected self h_event t =
        t ++ (List.range self.SpeechStartDetected.subscribers).map
              (fun i => Observation.notify EventKind.SpeechStartDetected i h_event)
          ++ [Observation.engine (EngineCall.recognizer_event_handle_release h_event)]
      ∧ FireEvent_SpeechEndDetected self h_event t =
        t ++ (List.range self.SpeechEndDetected.subscribers).map
              (fun i => Observation.notify EventKind.SpeechEndDetected i h_event)
          ++ [Observation.engine (EngineCall.recognizer_event_handle_release h_event)]
      ∧ FireEvent_Recognized self h_event t =
        t ++ (List.range self.Recognized.subscribers).map
              (fun i => Observation.notify EventKind.Recognized i h_event)
      ∧ FireEvent_Recognizing self h_event t =
        t ++ (List.range self.Recognizing.subscribers).map
              (fun i => Observation.notify EventKind.Recognizing i h_event)
      ∧ FireEvent_Canceled self h_event t =
        t ++ (List.range self.Canceled.subscribers).map
              (fun i => Observation.notify EventKind.Canceled i h_event)
      ∧ FireEvent_ActivityReceived self h_event t =
        t ++ (List.range self.ActivityReceived.subscribers).map
              (fun i => Observation.notify EventKind.ActivityReceived i h_event)
      ∧ FireEvent_TurnStatusReceived self h_event t =
        t ++ (List.range self.TurnStatusReceived.subscribers).map
              (fun i => Observation.notify EventKind.TurnStatusReceived i h_event) :=
  ⟨rfl, rfl, rfl, rfl, rfl, rfl, rfl, rfl, rfl⟩

/-! ### C6: the factory -/

/-- C6. FromConfig calls the factory entry point exactly once, as its first engine call,
with the handle of the dialog configuration and the handle of the audio configuration,
the invalid sentinel standing for a configuration that is absent. A non-success status
of the factory makes the call fail with exactly that status, nothing being constructed
or called afterwards; on success the connector returned stores the handle the factory
produced. -/
theorem C6_FromConfig_forwards_to_factory (eng : Engine) (address : Nat)
    (indeterminate : SPXHANDLE) (connectorConfig : Option DialogServiceConfig)
    (audioConfig : Option AudioConfig) (t : Trace) :
    (∃ rest : Trace,
        (FromConfig eng address indeterminate connectorConfig audioConfig t).2 =
          t ++ [Observation.engine
            (EngineCall.dialog_service_connector_create_dialog_service_connector_from_config
              (match connectorConfig with
                | some c => c.handle
                | none => SPXHANDLE_INVALID)
              (match audioConfig with
                | some a => a.handle
                | none => SPXHANDLE_INVALID))] ++ rest)
      ∧ factoryCalls (FromConfig eng address indeterminate connectorConfig audioConfig t).2 =
          factoryCalls t + 1
      ∧ (∀ s : SPXHR,
          (eng t (EngineCall.dialog_service_connector_create_dialog_service_connector_from_config
            (HandleOrInvalid DialogServiceConfig.handle connectorConfig)
            (HandleOrInvalid AudioConfig.handle audioConfig))).hr = s →
          s ≠ SPX_NOERROR →
          FromConfig eng address indeterminate connectorConfig audioConfig t =
            (Except.error s,
              t ++ [Observation.engine
                (EngineCall.dialog_service_connector_create_dialog_service_connector_from_config
                  (HandleOrInvalid DialogServiceConfig.handle connectorConfig)
                  (HandleOrInvalid AudioConfig.handle audioConfig))]))
      ∧ ((eng t (EngineCall.dialog_service_connector_create_dialog_service_connector_from_config
            (HandleOrInvalid DialogServiceConfig.handle connectorConfig)
            (HandleOrInvalid AudioConfig.handle audioConfig))).hr = SPX_NOERROR →
          ∃ c : DialogServiceConnector,
            (FromConfig eng address indeterminate connectorConfig audioConfig t).1 = Except.ok c
              ∧ c.m_handle =
                (eng t
                  (EngineCall.dialog_service_connector_create_dialog_service_connector_from_config
                    (HandleOrInvalid DialogServiceConfig.handle connectorConfig)
                    (HandleOrInvalid AudioConfig.handle audioConfig))).handle) := by
  have hc : (match connectorConfig with
      | some c => c.handle
      | none => SPXHANDLE_INVALID) = HandleOrInvalid DialogServiceConfig.handle connectorConfig := by
    cases connectorConfig <;> rfl
  have ha : (match audioConfig with
      | some a => a.handle
      | none => SPXHANDLE_INVALID) = HandleOrInvalid AudioConfig.handle audioConfig := by
    cases audioConfig <;> rfl
  rw [hc, ha]
  by_cases hf : SPX_FAILED
      (eng t (EngineCall.dialog_service_connector_create_dialog_service_connector_from_config
        (HandleOrInvalid DialogServiceConfig.handle connectorConfig)
        (HandleOrInvalid AudioConfig.handle audioConfig))).hr = true
  · refine ⟨⟨[], by simp [FromConfig, call, hf]⟩, ?_, ?_, ?_⟩
    · simp [FromConfig, call, hf, factoryCalls, List.countP_append]
    · intro s hs _
      subst hs
      simp [FromConfig, call, hf]
    · intro h0
      simp [SPX_FAILED, h0] at hf
  · refine ⟨⟨_, by simp [FromConfig, call, hf, ctor, PrivatePropertyCollection]; rfl⟩, ?_, ?_, ?_⟩
    · simp [FromConfig, call, hf, factoryCalls, List.countP_append, ctor,
        PrivatePropertyCollection]
    · intro s hs hne
      subst hs
      simp [SPX_FAILED, hne] at hf
    · intro _
      refine ⟨_, by simp only [FromConfig, call, hf]; rfl, by simp [ctor]⟩

/-- C6, witness: a successful creation from a dialog configuration with the handle 11
and no audio configuration. -/
theorem C6_FromConfig_forwards_to_factory_witness :
    (engineAllOk []
        (EngineCall.dialog_service_connector_create_dialog_service_connector_from_config
          (HandleOrInvalid DialogServiceConfig.handle (some ⟨11⟩))
          (HandleOrInvalid AudioConfig.handle none))).hr = SPX_NOERROR
      ∧ ∃ c : DialogServiceConnector,
          (FromConfig engineAllOk 4096 7 (some ⟨11⟩) none []).1 = Except.ok c
            ∧ c.m_handle = 42 :=
  ⟨rfl, (C6_FromConfig_forwards_to_factory engineAllOk 4096 7 (some ⟨11⟩) none []).2.2.2 rfl⟩

/-! ### C7: the forwarding tasks -/

/-- A forwarding task that raises for a failed status and completes otherwise raises
the status `s` exactly when the engine returned `s` and `s` is not the success status. -/
theorem forward_error_iff {α : Type} (hr s : SPXHR) (v : α) :
    (if SPX_FAILED hr = true then (Except.error hr : Except SPXHR α) else Except.ok v)
        = Except.error s ↔ (hr = s ∧ s ≠ SPX_NOERROR) := by
  by_cases h : hr = SPX_NOERROR
  · subst h
    simp only [SPX_FAILED, bne_self_eq_false, Bool.false_eq_true, ↓reduceIte]
    constructor
    · intro h1; cases h1
    · rintro ⟨h1, h2⟩; exact absurd h1.symm h2
  · have hf : SPX_FAILED hr = true := by simp [SPX_FAILED, h]
    simp only [hf, ↓reduceIte]
    constructor
    · intro h1
      cases h1
      exact ⟨rfl, h⟩
    · rintro ⟨h1, -⟩
      rw [h1]

/-- C7. The background task of each of ConnectAsync, DisconnectAsync,
StartKeywordRecognitionAsync, StopKeywordRecognitionAsync and ListenOnceAsync makes
exactly one engine call, to its own entry point with the stored connector handle
(StartKeywordRecognitionAsync adding the handle of the model, or the invalid sentinel
for an absent model); it fails with the status s if and only if that call returned s
and s is not the success status; on success it completes, ListenOnceAsync with a result
wrapping the result handle the engine produced. -/
theorem C7_async_tasks_forward_once (eng : Engine) (self : DialogServiceConnector)
    (t : Trace) (model : Option KeywordRecognitionModel) :
    (((ConnectAsync eng self t).2 = t ++ [Observation.engine (EngineCall.dialog_service_connector_connect self.m_handle)])
        ∧ (∀ s : SPXHR, (ConnectAsync eng self t).1 = Except.error s ↔
            ((eng t (EngineCall.dialog_service_connector_connect self.m_handle)).hr = s ∧ s ≠ SPX_NOERROR))
        ∧ ((eng t (EngineCall.dialog_service_connector_connect self.m_handle)).hr = SPX_NOERROR →
            (ConnectAsync eng self t).1 = Except.ok ()))
    ∧
    (((DisconnectAsync eng self t).2 = t ++ [Observation.engine (EngineCall.dialog_service_connector_disconnect self.m_handle)])
        ∧ (∀ s : SPXHR, (DisconnectAsync eng self t).1 = Except.error s ↔
            ((eng t (EngineCall.dialog_service_connector_disconnect self.m_handle)).hr = s ∧ s ≠ SPX_NOERROR))
        ∧ ((eng t (EngineCall.dialog_service_connector_disconnect self.m_handle)).hr = SPX_NOERROR →
            (DisconnectAsync eng self t).1 = Except.ok ()))
    ∧
    (((StartKeywordRecognitionAsync eng self t model).2 = t ++ [Observation.engine (EngineCall.dialog_service_connector_start_keyword_recognition self.m_handle
              (match model with
                | some m => m.handle
                | none => SPXHANDLE_INVALID))])
        ∧ (∀ s : SPXHR, (StartKeywordRecognitionAsync eng self t model).1 = Except.error s ↔
            ((eng t (EngineCall.dialog_service_connector_start_keyword_recognition self.m_handle
              (match model with
                | some m => m.handle
                | none => SPXHANDLE_INVALID))).hr = s ∧ s ≠ SPX_NOERROR))
        ∧ ((eng t (EngineCall.dialog_service_connector_start_keyword_recognition self.m_handle
              (match model with
                | some m => m.handle
                | none => SPXHANDLE_INVALID))).hr = SPX_NOERROR →
            (StartKeywordRecognitionAsync eng self t model).1 = Except.ok ()))
    ∧
    (((StopKeywordRecognitionAsync eng self t).2 = t ++ [Observation.engine (EngineCall.dialog_service_connector_stop_keyword_recognition self.m_handle)])
        ∧ (∀ s : SPXHR, (StopKeywordRecognitionAsync eng self t).1 = Except.error s ↔
            ((eng t (EngineCall.dialog_service_connector_stop_keyword_recognition self.m_handle)).hr = s ∧ s ≠ SPX_NOERROR))
        ∧ ((eng t (EngineCall.dialog_service_connector_stop_keyword_recognition self.m_handle)).hr = SPX_NOERROR →
            (StopKeywordRecognitionAsync eng self t).1 = Except.ok ()))
    ∧
    (((ListenOnceAsync eng self t).2 = t ++ [Observation.engine (EngineCall.dialog_service_connector_listen_once self.m_handle)])
        ∧ (∀ s : SPXHR, (ListenOnceAsync eng self t).1 = Except.error s ↔
            ((eng t (EngineCall.dialog_service_connector_listen_once self.m_handle)).hr = s ∧ s ≠ SPX_NOERROR))
        ∧ ((eng t (EngineCall.dialog_service_connector_listen_once self.m_handle)).hr = SPX_NOERROR →
            (ListenOnceAsync eng self t).1 = Except.ok 
              { m_hresult :=
                  (eng t (EngineCall.dialog_service_connector_listen_once self.m_handle)).handle })) := by
  have hm : (match model with
      | some m => m.handle
      | none => SPXHANDLE_INVALID) = HandleOrInvalid KeywordRecognitionModel.handle model := by
    cases model <;> rfl
  rw [hm]
  refine ⟨⟨?_, ?_, ?_⟩, ⟨?_, ?_, ?_⟩, ⟨?_, ?_, ?_⟩, ⟨?_, ?_, ?_⟩, ⟨?_, ?_, ?_⟩⟩
  · simp only [ConnectAsync, call]; split_ifs <;> rfl
  · intro s
    rw [← forward_error_iff _ s ()]
    simp only [ConnectAsync, call]; split_ifs <;> rfl
  · intro h; simp [ConnectAsync, call, SPX_FAILED, h]
  · simp only [DisconnectAsync, call]; split_ifs <;> rfl
  · intro s
    rw [← forward_error_iff _ s ()]
    simp only [DisconnectAsync, call]; split_ifs <;> rfl
  · intro h; simp [DisconnectAsync, call, SPX_FAILED, h]
  · simp only [StartKeywordRecognitionAsync, call]; split_ifs <;> rfl
  · intro s
    rw [← forward_error_iff _ s ()]
    simp only [StartKeywordRecognitionAsync, call]; split_ifs <;> rfl
  · intro h; simp [StartKeywordRecognitionAsync, call, SPX_FAILED, h]
  · simp only [StopKeywordRecognitionAsync, call]; split_ifs <;> rfl
  · intro s
    rw [← forward_error_iff _ s ()]
    simp only [StopKeywordRecognitionAsync, call]; split_ifs <;> rfl
  · intro h; simp [StopKeywordRecognitionAsync, call, SPX_FAILED, h]
  · simp only [ListenOnceAsync, call]; split_ifs <;> rfl
  · intro s
    rw [← forward_error_iff _ s
      ({ m_hresult :=
          (eng t (EngineCall.dialog_service_connector_listen_once self.m_handle)).handle } :
        SpeechRecognitionResult)]
    simp only [ListenOnceAsync, call]; split_ifs <;> rfl
  · intro h; simp [ListenOnceAsync, call, SPX_FAILED, h]

/-- C7, witness: against an engine that fails every call with the status 5, the
connect task fails with 5; against one that accepts, the listen-once task returns the
handle 42. -/
theorem C7_async_tasks_forward_once_witness :
    (engineAllFail [] (EngineCall.dialog_service_connector_connect sampleConnector.m_handle)).hr = 5
      ∧ (5 : SPXHR) ≠ SPX_NOERROR
      ∧ (ConnectAsync engineAllFail sampleConnector []).1 = Except.error 5
      ∧ (ListenOnceAsync engineAllOk sampleConnector []).1 = Except.ok ⟨42⟩ :=
  ⟨rfl, by decide,
    ((C7_async_tasks_forward_once engineAllFail sampleConnector [] none).1.2.1 5).2
      ⟨rfl, by decide⟩,
    (C7_async_tasks_forward_once engineAllOk sampleConnector [] none).2.2.2.2.2.2 rfl⟩

/-! ### C8: sending an activity -/

/-- In an array that holds a terminator, fewer characters come before the first
terminator than the array has. -/
theorem takeWhile_before_NUL_length (mem : List Char) (h : NUL ∈ mem) :
    (mem.takeWhile fun c => c != NUL).length < mem.length := by
  induction mem with
  | nil => simp at h
  | cons c cs ih =>
    by_cases hc : c = NUL
    · simp [List.takeWhile_cons, hc]
    · have hmem : NUL ∈ cs := by
        rcases List.mem_cons.mp h with h1 | h1
        · exact absurd h1.symm hc
        · exact h1
      have := ih hmem
      have hb : (c != NUL) = true := by simp [hc]
      rw [List.takeWhile_cons, hb]
      simp only [↓reduceIte, List.length_cons]
      omega

/-- A string without a terminator character is its own C string. -/
theorem c_str_of_no_NUL (s : String) (h : NUL ∉ s.data) : c_str s = s := by
  have hall : ∀ c ∈ s.data, (c != NUL) = true := by
    intro c hc
    have hne : c ≠ NUL := fun he => h (he ▸ hc)
    simpa using hne
  show String.mk (s.data.takeWhile fun c => c != NUL) = s
  rw [List.takeWhile_eq_self_iff.mpr hall]

/-- C8, counterexample. Against an engine that reports success and leaves fifty
letters without a terminator in the buffer, the task does not produce a string of at
most 49 characters: the conversion of the buffer reads past its end. And an activity
with a terminator character inside does not reach the engine unchanged: of the
three-character activity `a`, terminator, `b` the entry point is given the C string
`a`. -/
theorem C8_counterexample_unterminated_buffer :
    (engineUnterminated []
        (EngineCall.dialog_service_connector_send_activity sampleConnector.m_handle
          "ping" 50)).hr = SPX_NOERROR
      ∧ (SendActivityAsync engineUnterminated sampleConnector [] "ping").1 = Except.ok none
      ∧ (¬ ∃ id : String,
          (SendActivityAsync engineUnterminated sampleConnector [] "ping").1
              = Except.ok (some id)
            ∧ id.length ≤ 49)
      ∧ (SendActivityAsync engineAllOk sampleConnector [] (String.mk ['a', NUL, 'b'])).2
          = [Observation.engine
              (EngineCall.dialog_service_connector_send_activity 1 "a" 50)]
      ∧ String.mk ['a', NUL, 'b'] ≠ "a" := by
  have h : (SendActivityAsync engineUnterminated sampleConnector [] "ping").1
      = Except.ok none := by
    rfl
  refine ⟨rfl, h, ?_, by decide, by decide⟩
  rintro ⟨id, hid, -⟩
  rw [h] at hid
  cases hid

/-- C8, amended. For every activity string and every engine response, SendActivityAsync
makes one engine call, the send entry point with the connector handle, the C string of
the activity and a 50-character buffer; the engine is given the activity unchanged
when the activity holds no terminator character. A non-success status makes the task
fail with that status. On success, provided the engine left a terminator among the 50
characters of the buffer, the task returns the characters before the first terminator,
a string of at most 49 characters. -/
theorem C8_SendActivityAsync_returns_terminated_identifier (eng : Engine)
    (self : DialogServiceConnector) (t : Trace) (activity : String) :
    (SendActivityAsync eng self t activity).2 =
        t ++ [Observation.engine
          (EngineCall.dialog_service_connector_send_activity self.m_handle
            (c_str activity) 50)]
      ∧ (NUL ∉ activity.data →
          (SendActivityAsync eng self t activity).2 =
            t ++ [Observation.engine
              (EngineCall.dialog_service_connector_send_activity self.m_handle activity 50)])
      ∧ (∀ s : SPXHR,
          (eng t (EngineCall.dialog_service_connector_send_activity self.m_handle
            (c_str activity) 50)).hr = s →
          s ≠ SPX_NOERROR →
          (SendActivityAsync eng self t activity).1 = Except.error s)
      ∧ ((eng t (EngineCall.dialog_service_connector_send_activity self.m_handle
            (c_str activity) 50)).hr = SPX_NOERROR →
          NUL ∈ (eng t (EngineCall.dialog_service_connector_send_activity self.m_handle
            (c_str activity) 50)).buffer.take 50 →
          ∃ id : String,
            (SendActivityAsync eng self t activity).1 = Except.ok (some id)
              ∧ id.data =
                ((eng t (EngineCall.dialog_service_connector_send_activity self.m_handle
                  (c_str activity) 50)).buffer.take 50).takeWhile (fun c => c != NUL)
              ∧ id.length ≤ 49) := by
  have htrace : (SendActivityAsync eng self t activity).2 =
      t ++ [Observation.engine
        (EngineCall.dialog_service_connector_send_activity self.m_handle
          (c_str activity) 50)] := by
    simp only [SendActivityAsync, call]; split_ifs <;> rfl
  refine ⟨htrace, ?_, ?_, ?_⟩
  · intro hn
    rw [htrace, c_str_of_no_NUL activity hn]
  · intro s hs hne
    subst hs
    have hf : SPX_FAILED (eng t (EngineCall.dialog_service_connector_send_activity
        self.m_handle (c_str activity) 50)).hr = true := by
      simp [SPX_FAILED, hne]
    simp [SendActivityAsync, call, hf]
  · intro h0 hnul
    have hf : SPX_FAILED (eng t (EngineCall.dialog_service_connector_send_activity
        self.m_handle (c_str activity) 50)).hr = false := by
      simp [SPX_FAILED, h0]
    refine ⟨String.mk (((eng t (EngineCall.dialog_service_connector_send_activity
        self.m_handle (c_str activity) 50)).buffer.take 50).takeWhile (fun c => c != NUL)),
      ?_, rfl, ?_⟩
    · simp [SendActivityAsync, call, hf, c_string, hnul]
    · have h1 := takeWhile_before_NUL_length _ hnul
      have h2 : ((eng t (EngineCall.dialog_service_connector_send_activity
          self.m_handle (c_str activity) 50)).buffer.take 50).length ≤ 50 := by
        simp [List.length_take]
      show (List.takeWhile _ _).length ≤ 49
      omega

/-- C8, witness: the activity `ping`, which holds no terminator, against the engine that
answers with the identifier `id-1`. -/
theorem C8_SendActivityAsync_returns_terminated_identifier_witness :
    NUL ∉ ("ping" : String).data
      ∧ (SendActivityAsync engineAllOk sampleConnector [] "ping").2 =
          [Observation.engine (EngineCall.dialog_service_connector_send_activity 1 "ping" 50)]
      ∧ (engineAllOk [] (EngineCall.dialog_service_connector_send_activity
          sampleConnector.m_handle (c_str "ping") 50)).hr = SPX_NOERROR
      ∧ NUL ∈ (engineAllOk [] (EngineCall.dialog_service_connector_send_activity
          sampleConnector.m_handle (c_str "ping") 50)).buffer.take 50
      ∧ ∃ id : String,
          (SendActivityAsync engineAllOk sampleConnector [] "ping").1 = Except.ok (some id)
            ∧ id.data =
              ((engineAllOk [] (EngineCall.dialog_service_connector_send_activity
                sampleConnector.m_handle (c_str "ping") 50)).buffer.take 50).takeWhile
                  (fun c => c != NUL)
            ∧ id.length ≤ 49 :=
  ⟨by decide,
    (C8_SendActivityAsync_returns_terminated_identifier engineAllOk sampleConnector []
      "ping").2.1 (by decide),
    rfl, by decide,
    (C8_SendActivityAsync_returns_terminated_identifier engineAllOk sampleConnector []
      "ping").2.2.2 rfl (by decide)⟩

/-! ### C9: the property accessors -/

theorem lookup_filter_other (id other : PropertyId) (h : id ≠ other)
    (entries : List (PropertyId × String)) :
    (entries.filter fun e => e.1 != other).lookup id = entries.lookup id := by
  induction entries with
  | nil => rfl
  | cons e es ih =>
    obtain ⟨k, v⟩ := e
    by_cases hk : k = other
    · subst hk
      have hne : (id == k) = false := by simpa using h
      simp [List.filter_cons, List.lookup_cons, hne, ih]
    · have hb : ((k, v).1 != other) = true := by simpa using hk
      rw [List.filter_cons, hb]
      simp only [↓reduceIte, List.lookup_cons]
      rw [ih]

theorem GetProperty_SetProperty_same (p : PropertyCollection) (id : PropertyId)
    (value d : String) : (p.SetProperty id value).GetProperty id d = value := by
  simp [PropertyCollection.SetProperty, PropertyCollection.GetProperty, List.lookup_cons]

theorem GetProperty_SetProperty_other (p : PropertyCollection) (id other : PropertyId)
    (h : id ≠ other) (value d : String) :
    (p.SetProperty other value).GetProperty id d = p.GetProperty id d := by
  have hne : (id == other) = false := by simpa using h
  simp only [PropertyCollection.SetProperty, PropertyCollection.GetProperty, List.lookup_cons,
    hne, lookup_filter_other id other h]

theorem GetAuthorizationToken_foldl_SetSpeechActivityTemplate (templates : List String)
    (self : DialogServiceConnector) :
    (templates.foldl SetSpeechActivityTemplate self).GetAuthorizationToken
      = self.GetAuthorizationToken := by
  induction templates generalizing self with
  | nil => rfl
  | cons a as ih =>
    rw [List.foldl_cons, ih]
    exact GetProperty_SetProperty_other _ _ _ (by decide) _ _

theorem GetSpeechActivityTemplate_foldl_SetAuthorizationToken (tokens : List String)
    (self : DialogServiceConnector) :
    (tokens.foldl SetAuthorizationToken self).GetSpeechActivityTemplate
      = self.GetSpeechActivityTemplate := by
  induction tokens generalizing self with
  | nil => rfl
  | cons a as ih =>
    rw [List.foldl_cons, ih]
    exact GetProperty_SetProperty_other _ _ _ (by decide) _ _

/-- C9. On a connector as the constructor leaves it, GetAuthorizationToken returns the
empty string as long as SetAuthorizationToken was not called, whatever templates were
set meanwhile, and GetSpeechActivityTemplate returns the empty string as long as
SetSpeechActivityTemplate was not called. Each getter reads the bag under its own
identifier with the empty string as default, and each setter writes under the
identifier its getter reads: a getter returns what its setter stored last and is not
affected by the other setter. -/
theorem C9_property_accessors (eng : Engine) (address : Nat) (indeterminate handle : SPXHANDLE)
    (t : Trace) (self : DialogServiceConnector) (value : String) (others : List String) :
    (others.foldl SetSpeechActivityTemplate
        (ctor eng address indeterminate handle t).1).GetAuthorizationToken = ""
      ∧ (others.foldl SetAuthorizationToken
        (ctor eng address indeterminate handle t).1).GetSpeechActivityTemplate = ""
      ∧ self.GetAuthorizationToken =
          (self.Properties.entries.lookup PropertyId.SpeechServiceAuthorization_Token).getD ""
      ∧ self.GetSpeechActivityTemplate =
          (self.Properties.entries.lookup
            PropertyId.Conversation_Speech_Activity_Template).getD ""
      ∧ (self.SetAuthorizationToken value).GetAuthorizationToken = value
      ∧ (self.SetSpeechActivityTemplate value).GetSpeechActivityTemplate = value
      ∧ (self.SetSpeechActivityTemplate value).GetAuthorizationToken
          = self.GetAuthorizationToken
      ∧ (self.SetAuthorizationToken value).GetSpeechActivityTemplate
          = self.GetSpeechActivityTemplate := by
  refine ⟨?_, ?_, ?_, ?_, ?_, ?_, ?_, ?_⟩
  · rw [GetAuthorizationToken_foldl_SetSpeechActivityTemplate]; rfl
  · rw [GetSpeechActivityTemplate_foldl_SetAuthorizationToken]; rfl
  · simp only [GetAuthorizationToken, PropertyCollection.GetProperty]
    cases self.Properties.entries.lookup PropertyId.SpeechServiceAuthorization_Token <;> rfl
  · simp only [GetSpeechActivityTemplate, PropertyCollection.GetProperty]
    cases self.Properties.entries.lookup PropertyId.Conversation_Speech_Activity_Template <;> rfl
  · exact GetProperty_SetProperty_same _ _ _ _
  · exact GetProperty_SetProperty_same _ _ _ _
  · exact GetProperty_SetProperty_other _ _ _ (by decide) _ _
  · exact GetProperty_SetProperty_other _ _ _ (by decide) _ _

/-! ### C10: the connector outlives its background tasks -/

theorem releaseCalls_ConnectAsync (eng : Engine) (c : DialogServiceConnector) (t : Trace) :
    releaseCalls (ConnectAsync eng c t).2 = releaseCalls t := by
  simp only [ConnectAsync, call]
  split_ifs <;> simp [releaseCalls, List.countP_append]

/-- When an owner goes away from a live, untouched, unreleased connector, either owners
remain and nothing happens, or none remains and the connector is destroyed. -/
theorem Shared.ownerGone_invariant (c : DialogServiceConnector) (t : Trace) (s : Shared)
    (ha : s.alive = true) (hobj : s.object = c)
    (hr : releaseCalls s.trace = releaseCalls t) :
    ((Shared.ownerGone s).alive = true ∧ 0 < (Shared.ownerGone s).owners
        ∧ (Shared.ownerGone s).object = c
        ∧ releaseCalls (Shared.ownerGone s).trace = releaseCalls t)
      ∨ ((Shared.ownerGone s).alive = false ∧ (Shared.ownerGone s).external = 0
        ∧ (Shared.ownerGone s).tasks = []) := by
  unfold Shared.ownerGone
  by_cases h0 : s.owners = 0
  · rw [if_pos ⟨h0, ha⟩]
    right
    have h1 : s.external + s.tasks.length = 0 := h0
    refine ⟨rfl, ?_, ?_⟩
    · show s.external = 0
      omega
    · show s.tasks = []
      apply List.eq_nil_of_length_eq_zero
      omega
  · rw [if_neg (fun h => h0 h.1)]
    left
    exact ⟨ha, Nat.pos_of_ne_zero h0, hobj, hr⟩

/-- Nothing can happen to a destroyed connector to which nothing refers. -/
theorem Shared.step_destroyed (eng : Engine) (s : Shared) (e : LifetimeEvent)
    (he : s.external = 0) (ht : s.tasks = []) : Shared.step eng s e = s := by
  cases e <;> simp [Shared.step, he, ht]

/-- Every event keeps the lifetime invariant: either the connector is alive, owned,
untouched and unreleased, or it has been destroyed and nothing refers to it. -/
theorem Shared.step_invariant (eng : Engine) (c : DialogServiceConnector) (t : Trace)
    (s : Shared) (e : LifetimeEvent)
    (h : (s.alive = true ∧ 0 < s.owners ∧ s.object = c
            ∧ releaseCalls s.trace = releaseCalls t)
          ∨ (s.alive = false ∧ s.external = 0 ∧ s.tasks = [])) :
    ((Shared.step eng s e).alive = true ∧ 0 < (Shared.step eng s e).owners
        ∧ (Shared.step eng s e).object = c
        ∧ releaseCalls (Shared.step eng s e).trace = releaseCalls t)
      ∨ ((Shared.step eng s e).alive = false ∧ (Shared.step eng s e).external = 0
        ∧ (Shared.step eng s e).tasks = []) := by
  rcases h with ⟨ha, ho, hobj, hr⟩ | ⟨ha, he, ht⟩
  · cases e with
    | callConnectAsync =>
      simp only [Shared.step]
      split_ifs
      · left
        refine ⟨ha, ?_, hobj, hr⟩
        simp only [Shared.owners, List.length_append, List.length_singleton]
        omega
      · left; exact ⟨ha, ho, hobj, hr⟩
    | runTask i =>
      simp only [Shared.step]
      split
      · left
        refine ⟨ha, ?_, hobj, ?_⟩
        · simpa [Shared.owners] using ho
        · show releaseCalls (ConnectAsync eng s.object s.trace).2 = releaseCalls t
          rw [releaseCalls_ConnectAsync, hr]
      · left; exact ⟨ha, ho, hobj, hr⟩
    | completeTask i =>
      simp only [Shared.step]
      split
      · exact Shared.ownerGone_invariant c t _ ha hobj hr
      · left; exact ⟨ha, ho, hobj, hr⟩
    | dropExternal =>
      simp only [Shared.step]
      split_ifs with hpos
      · exact Shared.ownerGone_invariant c t _ ha hobj hr
      · left; exact ⟨ha, ho, hobj, hr⟩
  · right
    rw [Shared.step_destroyed eng s e he ht]
    exact ⟨ha, he, ht⟩

theorem Shared.run_invariant (eng : Engine) (c : DialogServiceConnector) (t : Trace)
    (events : List LifetimeEvent) (s : Shared)
    (h : (s.alive = true ∧ 0 < s.owners ∧ s.object = c
            ∧ releaseCalls s.trace = releaseCalls t)
          ∨ (s.alive = false ∧ s.external = 0 ∧ s.tasks = [])) :
    ((Shared.run eng events s).alive = true ∧ 0 < (Shared.run eng events s).owners
        ∧ (Shared.run eng events s).object = c
        ∧ releaseCalls (Shared.run eng events s).trace = releaseCalls t)
      ∨ ((Shared.run eng events s).alive = false ∧ (Shared.run eng events s).external = 0
        ∧ (Shared.run eng events s).tasks = []) := by
  induction events generalizing s with
  | nil => exact h
  | cons e es ih =>
    simp only [Shared.run, List.foldl_cons]
    exact ih _ (Shared.step_invariant eng c t s e h)

/-- C10. From the state in which FromConfig hands out the connector, after any sequence
of ConnectAsync calls, task steps and dropped owners: as long as a background task is
in flight the connector has not been destroyed, it is unchanged, and the release entry
point has not been called. In particular, after ConnectAsync and the drop of the last
external owner the task is still in flight and the connector alive; the release follows
the task's engine call once the task has completed. -/
theorem C10_connector_outlives_connect_task (eng : Engine) (c : DialogServiceConnector)
    (t : Trace) (events : List LifetimeEvent) :
    ((Shared.run eng events (Shared.initial c t)).tasks ≠ [] →
        (Shared.run eng events (Shared.initial c t)).alive = true
          ∧ (Shared.run eng events (Shared.initial c t)).object = c
          ∧ releaseCalls (Shared.run eng events (Shared.initial c t)).trace = releaseCalls t)
      ∧ ((Shared.run eng [LifetimeEvent.callConnectAsync, LifetimeEvent.dropExternal]
            (Shared.initial c t)).tasks = [TaskPhase.launched]
          ∧ (Shared.run eng [LifetimeEvent.callConnectAsync, LifetimeEvent.dropExternal]
            (Shared.initial c t)).external = 0
          ∧ (Shared.run eng [LifetimeEvent.callConnectAsync, LifetimeEvent.dropExternal]
            (Shared.initial c t)).alive = true
          ∧ (Shared.run eng [LifetimeEvent.callConnectAsync, LifetimeEvent.dropExternal]
            (Shared.initial c t)).trace = t)
      ∧ (Shared.run eng
            [LifetimeEvent.callConnectAsync, LifetimeEvent.dropExternal,
              LifetimeEvent.runTask 0, LifetimeEvent.completeTask 0]
            (Shared.initial c t)).trace =
          t ++ [Observation.engine (EngineCall.dialog_service_connector_connect c.m_handle)]
            ++ (if c.m_handle = SPXHANDLE_INVALID then []
                else [Observation.engine
                  (EngineCall.dialog_service_connector_handle_release c.m_handle)]) := by
  refine ⟨fun hne => ?_, ⟨rfl, rfl, rfl, rfl⟩, ?_⟩
  · have hinit : ((Shared.initial c t).alive = true ∧ 0 < (Shared.initial c t).owners
          ∧ (Shared.initial c t).object = c
          ∧ releaseCalls (Shared.initial c t).trace = releaseCalls t)
        ∨ ((Shared.initial c t).alive = false ∧ (Shared.initial c t).external = 0
          ∧ (Shared.initial c t).tasks = []) :=
      Or.inl ⟨rfl, Nat.one_pos, rfl, rfl⟩
    rcases Shared.run_invariant eng c t events _ hinit with ⟨ha, -, hobj, hr⟩ | ⟨-, -, ht⟩
    · exact ⟨ha, hobj, hr⟩
    · exact absurd ht hne
  · have htrace : (ConnectAsync eng c t).2 =
        t ++ [Observation.engine (EngineCall.dialog_service_connector_connect c.m_handle)] := by
      simp only [ConnectAsync, call]; split_ifs <;> rfl
    by_cases hv : c.m_handle = SPXHANDLE_INVALID
    · simp [Shared.run, Shared.step, Shared.initial, Shared.ownerGone, Shared.owners,
        Destructor, hv, htrace]
    · simp [Shared.run, Shared.step, Shared.initial, Shared.ownerGone, Shared.owners,
        Destructor, hv, htrace]

/-- C10, witness: ConnectAsync is issued on the sample connector and the only external
owner is dropped; the task is in flight, the connector is alive and unreleased. -/
theorem C10_connector_outlives_connect_task_witness :
    (Shared.run engineAllOk [LifetimeEvent.callConnectAsync, LifetimeEvent.dropExternal]
        (Shared.initial sampleConnector [])).tasks ≠ []
      ∧ (Shared.run engineAllOk [LifetimeEvent.callConnectAsync, LifetimeEvent.dropExternal]
        (Shared.initial sampleConnector [])).alive = true
      ∧ (Shared.run engineAllOk [LifetimeEvent.callConnectAsync, LifetimeEvent.dropExternal]
        (Shared.initial sampleConnector [])).object = sampleConnector
      ∧ releaseCalls
          (Shared.run engineAllOk [LifetimeEvent.callConnectAsync, LifetimeEvent.dropExternal]
            (Shared.initial sampleConnector [])).trace = releaseCalls [] :=
  ⟨by simp [Shared.run, Shared.step, Shared.initial, Shared.ownerGone, Shared.owners],
    (C10_connector_outlives_connect_task engineAllOk sampleConnector []
      [LifetimeEvent.callConnectAsync, LifetimeEvent.dropExternal]).1
      (by simp [Shared.run, Shared.step, Shared.initial, Shared.ownerGone, Shared.owners])⟩

/-! ### C11: the order of the engine calls of the stop-listening task -/

/-- C11. When the engine accepts the release of the stale handle, the task goes on with
the stop request on the connector handle and keeps the handle that request left. If
the stop request failed, the wait is skipped: the task releases the kept handle and
fails with the status of the stop request. Otherwise it waits on the kept handle with
the largest 32-bit unsigned timeout, releases the kept handle, and fails with the
status of the wait if that is not success and succeeds if it is. In every case the
invalid sentinel is stored afterwards, and the reply to the final release has no part
in the outcome. -/
theorem C11_stop_listening_call_order (eng : Engine) (self : DialogServiceConnector)
    (t : Trace)
    (h : SPX_FAILED
      (eng t (EngineCall.speechapi_async_handle_release self.m_hasyncStopContinuous)).hr = false) :
    UINT32_MAX = 2 ^ 32 - 1
      ∧ (SPX_FAILED
            (eng (t ++ [Observation.engine
                  (EngineCall.speechapi_async_handle_release self.m_hasyncStopContinuous)])
              (EngineCall.dialog_service_connector_stop_listening_async self.m_handle)).hr = true →
          StopListeningAsync eng self t =
            (Except.error
                (eng (t ++ [Observation.engine
                      (EngineCall.speechapi_async_handle_release self.m_hasyncStopContinuous)])
                  (EngineCall.dialog_service_connector_stop_listening_async self.m_handle)).hr,
              { self with m_hasyncStopContinuous := SPXHANDLE_INVALID },
              t ++ [Observation.engine
                      (EngineCall.speechapi_async_handle_release self.m_hasyncStopContinuous),
                    Observation.engine
                      (EngineCall.dialog_service_connector_stop_listening_async self.m_handle),
                    Observation.engine (EngineCall.speechapi_async_handle_release
                      (eng (t ++ [Observation.engine (EngineCall.speechapi_async_handle_release
                            self.m_hasyncStopContinuous)])
                        (EngineCall.dialog_service_connector_stop_listening_async
                          self.m_handle)).handle)]))
      ∧ (SPX_FAILED
            (eng (t ++ [Observation.engine
                  (EngineCall.speechapi_async_handle_release self.m_hasyncStopContinuous)])
              (EngineCall.dialog_service_connector_stop_listening_async self.m_handle)).hr = false →
          StopListeningAsync eng self t =
            ((if SPX_FAILED
                  (eng (t ++ [Observation.engine (EngineCall.speechapi_async_handle_release
                          self.m_hasyncStopContinuous),
                        Observation.engine
                          (EngineCall.dialog_service_connector_stop_listening_async
                            self.m_handle)])
                    (EngineCall.speechapi_async_wait_for
                      (eng (t ++ [Observation.engine (EngineCall.speechapi_async_handle_release
                            self.m_hasyncStopContinuous)])
                        (EngineCall.dialog_service_connector_stop_listening_async
                          self.m_handle)).handle
                      UINT32_MAX)).hr = true
              then Except.error
                  (eng (t ++ [Observation.engine (EngineCall.speechapi_async_handle_release
                          self.m_hasyncStopContinuous),
                        Observation.engine
                          (EngineCall.dialog_service_connector_stop_listening_async
                            self.m_handle)])
                    (EngineCall.speechapi_async_wait_for
                      (eng (t ++ [Observation.engine (EngineCall.speechapi_async_handle_release
                            self.m_hasyncStopContinuous)])
                        (EngineCall.dialog_service_connector_stop_listening_async
                          self.m_handle)).handle
                      UINT32_MAX)).hr
              else Except.ok ()),
              { self with m_hasyncStopContinuous := SPXHANDLE_INVALID },
              t ++ [Observation.engine
                      (EngineCall.speechapi_async_handle_release self.m_hasyncStopContinuous),
                    Observation.engine
                      (EngineCall.dialog_service_connector_stop_listening_async self.m_handle),
                    Observation.engine (EngineCall.speechapi_async_wait_for
                      (eng (t ++ [Observation.engine (EngineCall.speechapi_async_handle_release
                            self.m_hasyncStopContinuous)])
                        (EngineCall.dialog_service_connector_stop_listening_async
                          self.m_handle)).handle
                      UINT32_MAX),
                    Observation.engine (EngineCall.speechapi_async_handle_release
                      (eng (t ++ [Observation.engine (EngineCall.speechapi_async_handle_release
                            self.m_hasyncStopContinuous)])
                        (EngineCall.dialog_service_connector_stop_listening_async
                          self.m_handle)).handle)])) := by
  refine ⟨by decide, fun h1 => ?_, fun h1 => ?_⟩
  · simp only [StopListeningAsync, call, h, h1, Bool.false_eq_true, ↓reduceIte,
      List.append_assoc, List.cons_append, List.nil_append]
  · simp only [StopListeningAsync, call, h, h1, Bool.false_eq_true, ↓reduceIte,
      List.append_assoc, List.cons_append, List.nil_append]
    split_ifs <;> rfl

/-- C11, witness: against an engine that accepts everything, the task on the sample
connector makes its four calls in order and succeeds. -/
theorem C11_stop_listening_call_order_witness :
    SPX_FAILED
        (engineAllOk [] (EngineCall.speechapi_async_handle_release
          sampleConnector.m_hasyncStopContinuous)).hr = false
      ∧ StopListeningAsync engineAllOk sampleConnector [] =
          (Except.ok (),
            { sampleConnector with m_hasyncStopContinuous := SPXHANDLE_INVALID },
            [Observation.engine (EngineCall.speechapi_async_handle_release 7),
             Observation.engine (EngineCall.dialog_service_connector_stop_listening_async 1),
             Observation.engine (EngineCall.speechapi_async_wait_for 42 UINT32_MAX),
             Observation.engine (EngineCall.speechapi_async_handle_release 42)]) :=
  ⟨rfl, (C11_stop_listening_call_order engineAllOk sampleConnector [] rfl).2.2 rfl⟩

/-! ### C12: the handle given to the defensive release -/

/-- C12, the code at the failing input. A connector that FromConfig has just built in
storage reading 7 at `m_hasyncStopContinuous` stores 7 there, not the invalid sentinel,
and its first StopListeningAsync applies the defensive release to 7, a handle no stop
request ever produced. -/
theorem C12_fresh_connector_releases_indeterminate_handle :
    (FromConfig engineAllOk 4096 7 (some ⟨11⟩) none []).1 =
        Except.ok
          (ctor engineAllOk 4096 7 42
            [Observation.engine
              (EngineCall.dialog_service_connector_create_dialog_service_connector_from_config
                11 SPXHANDLE_INVALID)]).1
      ∧ (ctor engineAllOk 4096 7 42
            [Observation.engine
              (EngineCall.dialog_service_connector_create_dialog_service_connector_from_config
                11 SPXHANDLE_INVALID)]).1.m_hasyncStopContinuous = 7
      ∧ (7 : SPXHANDLE) ≠ SPXHANDLE_INVALID
      ∧ (StopListeningAsync engineAllOk
            (ctor engineAllOk 4096 7 42
              [Observation.engine
                (EngineCall.dialog_service_connector_create_dialog_service_connector_from_config
                  11 SPXHANDLE_INVALID)]).1 []).2.2 =
          [Observation.engine (EngineCall.speechapi_async_handle_release 7),
           Observation.engine (EngineCall.dialog_service_connector_stop_listening_async 42),
           Observation.engine (EngineCall.speechapi_async_wait_for 42 UINT32_MAX),
           Observation.engine (EngineCall.speechapi_async_handle_release 42)] := by
  refine ⟨rfl, rfl, by decide, rfl⟩

/-! ### C13: the connection-changed handlers -/

theorem callbackSlot_append_other (h : SPXHANDLE) (k k1 : EventKind) (h1 : SPXHANDLE)
    (callback : Option EventKind) (pv_context : Nat) (t : Trace) (hk : k ≠ k1) :
    callbackSlot h k
        (t ++ [Observation.engine (EngineCall.set_callback k1 h1 callback pv_context)])
      = callbackSlot h k t := by
  have hne : ¬ (k1 = k ∧ h1 = h) := fun hc => hk hc.1.symm
  simp only [callbackSlot, List.foldl_append, List.foldl_cons, List.foldl_nil, hne, ↓reduceIte]

/-- The callback an endpoint was constructed with makes no engine call while the
connector handle is the invalid sentinel. -/
theorem Callback_invalid_handle (self : DialogServiceConnector) (t : Trace) (k : EventKind)
    (h : self.m_handle = SPXHANDLE_INVALID) : Callback k self t k = t := by
  cases k <;>
    simp [Callback, RecognizerEventConnectionChanged, SessionEventConnectionChanged,
      SpeechDetectionEventConnectionChanged, CanceledEventConnectionChanged,
      ActivityReceivedConnectionChanged, TurnStatusReceivedConnectionChanged, h]

/-- C13. For each of the nine endpoints, the connection-changed handler the endpoint was
constructed with, invoked for that endpoint on a connector with a valid handle, makes
exactly one engine call: the set-callback entry point of the endpoint's own kind, on
the connector handle, with the endpoint's own FireEvent dispatcher when the endpoint has
a subscriber and null when it has none, and with the connector as context. The
callback slots of the other eight kinds are as before. With the invalid sentinel as
stored handle the handler makes no engine call. -/
theorem C13_handler_registers_own_kind_only (k : EventKind) (self : DialogServiceConnector)
    (t : Trace) :
    (self.m_handle ≠ SPXHANDLE_INVALID →
        Callback k self t k =
            t ++ [Observation.engine
              (EngineCall.set_callback k self.m_handle
                (if (self.endpoint k).subscribers = 0 then none else some k) self.address)]
          ∧ ∀ (k1 : EventKind) (h1 : SPXHANDLE), k1 ≠ k →
              callbackSlot h1 k1 (Callback k self t k) = callbackSlot h1 k1 t)
      ∧ (self.m_handle = SPXHANDLE_INVALID → Callback k self t k = t) := by
  refine ⟨fun hv => ?_, fun hi => Callback_invalid_handle self t k hi⟩
  have hcall : Callback k self t k =
      t ++ [Observation.engine
        (EngineCall.set_callback k self.m_handle
          (if (self.endpoint k).subscribers = 0 then none else some k) self.address)] := by
    rw [Callback_own_endpoint self t k hv, setCallbackCall]
    by_cases h0 : (self.endpoint k).subscribers = 0
    · simp [EventSignal.IsConnected, h0]
    · simp [EventSignal.IsConnected, h0]
  refine ⟨hcall, fun k1 h1 hk => ?_⟩
  rw [hcall]
  exact callbackSlot_append_other h1 k1 k _ _ _ t hk

/-- C13, witness: the handler of `Recognized` on the sample connector, which has a valid
handle and no subscriber, deregisters the callback of `Recognized` and nothing else. -/
theorem C13_handler_registers_own_kind_only_witness :
    sampleConnector.m_handle ≠ SPXHANDLE_INVALID
      ∧ Callback EventKind.Recognized sampleConnector [] EventKind.Recognized =
          [Observation.engine (EngineCall.set_callback EventKind.Recognized 1 none 4096)] :=
  ⟨by decide,
    ((C13_handler_registers_own_kind_only EventKind.Recognized sampleConnector []).1
      (by decide)).1⟩

end DialogService
